import Mathlib

/-!
# Request pipeline of `internal/pkg/core/core.go`

A shallow embedding of the middleware pipeline that `core.New` installs on
the gin engine: the outer recovery middleware, the journal middleware with
its deferred unwind function (recovery block, response unifier, metrics hook,
journal finalisation) and the optional rate gate.

The request context is an explicit record, the observable effects of the
pipeline (log records, callback invocations, `ctx.JSON` calls) are collected
in a trace, and a Go panic is an explicit `Option Fault` carried next to the
state.
-/

set_option autoImplicit false

namespace Core

/-- The value carried by a Go panic, as formatted for the log. A fault is always a
non-nil value: `recover()` returning nil is the no-fault case. -/
abbrev Fault := String

/-- Response header and request header storage: key/value pairs, first match wins. -/
abbrev Header := List (String × String)

/-- Lookup of a header value; the empty string when the key is absent
(`http.Header.Get`). -/
def Header.get (h : Header) (key : String) : String :=
  match h.lookup key with
  | some v => v
  | none => ""

/-- Replace the value stored under a key (`http.Header.Set`). -/
def Header.set (h : Header) (key value : String) : Header :=
  (key, value) :: h.filter (fun kv => kv.1 != key)

namespace errno

/-- Modelled from the spec: the `errno.Error` object of package errno, which lies
outside core.go. The spec gives the envelope a business code, a message,
opaque data and a correlation id. -/
structure Error where
  code : Int
  msg : String
  data : String
  id : String
  deriving DecidableEq, Repr

/-- Modelled from the spec: `GetCode` of the absent errno package, the business code. -/
def Error.GetCode (e : Error) : Int := e.code

/-- Modelled from the spec: `GetMsg` of the absent errno package, the message. -/
def Error.GetMsg (e : Error) : String := e.msg

/-- Modelled from the spec: `WithID` of the absent errno package; the envelope's
correlation id is populated with the given id. -/
def Error.WithID (e : Error) (id : String) : Error := { e with id := id }

end errno

namespace journal

/-- The `journal.Request` snapshot, with the fields that core.go fills in. -/
structure Request where
  TTL : String
  Method : String
  DecodedURL : String
  Header : Core.Header
  Body : String
  deriving DecidableEq, Repr

/-- The `journal.Response` snapshot, with the fields that core.go fills in. -/
structure Response where
  Header : Core.Header
  StatusCode : Nat
  Status : String
  Body : Option errno.Error
  deriving DecidableEq, Repr

/-- Modelled from the spec: the `journal.Journal` entry of the absent journal package:
correlation id, request snapshot, response snapshot, success flag, cost. -/
structure Journal where
  id : String
  request : Option Request
  response : Option Response
  Success : Bool
  CostSeconds : Nat
  deriving DecidableEq, Repr

/-- Modelled from the spec: `journal.NewJournal` of the absent journal package: a
supplied id is adopted, the empty id is replaced by a freshly minted one
(`mint` stands for the id the generator would produce). -/
def NewJournal (mint : String) (id : String) : Journal :=
  { id := if id = "" then mint else id
    request := none
    response := none
    Success := false
    CostSeconds := 0 }

/-- Modelled from the spec: `ID()` of the journal handle. -/
def Journal.ID (j : Journal) : String := j.id

/-- Modelled from the spec: `WithRequest` stores the request snapshot. -/
def Journal.WithRequest (j : Journal) (r : Request) : Journal := { j with request := some r }

/-- Modelled from the spec: `WithResponse` stores the response snapshot. -/
def Journal.WithResponse (j : Journal) (r : Response) : Journal := { j with response := some r }

end journal

/-- Declarations that core.go uses and that live outside the file: the header name
and the two fixed errors of the absent packages, and the results of the library and
runtime calls made during one request (fresh journal id, stack dump, status text,
query unescaping, the two readings of the elapsed time). -/
structure Deps where
  JournalHeader : String
  ErrServer : errno.Error
  ErrManyRequest : errno.Error
  mint : String
  stack : String
  StatusText : Nat → String
  QueryUnescape : String → String
  sinceAtMetrics : Nat
  sinceAtJournal : Nat

/-- Modelled from the spec: the request context (the wrapped gin context together with the
keys stored on it by the absent context.go): raw method, raw URI, headers, body bytes,
response payload, alias, journal handle, abort error; and from gin the transport status
of the writer, the abort flag, the accumulated gin errors and the response headers. -/
structure Ctx where
  method : String
  path : String
  requestURI : String
  uri : String
  header : Header
  rawData : String
  status : Nat
  aborted : Bool
  ginErrors : List String
  payload : Option errno.Error
  abortErr : Option errno.Error
  aliasName : String
  journal : Option journal.Journal
  respHeader : Header
  deriving DecidableEq, Repr

namespace Ctx

/-- Modelled from the spec: `GetHeader` reads a request header, empty when absent. -/
def GetHeader (c : Ctx) (key : String) : String := c.header.get key

/-- Modelled from the spec: `SetHeader` sets a response header. -/
def SetHeader (c : Ctx) (key value : String) : Ctx :=
  { c with respHeader := c.respHeader.set key value }

/-- Modelled from the spec: `setJournal` stores the journal handle on the context. -/
def setJournal (c : Ctx) (j : journal.Journal) : Ctx := { c with journal := some j }

/-- Modelled from the spec: `disableJournal` clears the journal handle. -/
def disableJournal (c : Ctx) : Ctx := { c with journal := none }

/-- Modelled from the spec: `Journal` returns the journal handle, nil when there is none. -/
def Journal (c : Ctx) : Option journal.Journal := c.journal

/-- Modelled from the spec: `SetPayload` stores the response payload. -/
def SetPayload (c : Ctx) (e : errno.Error) : Ctx := { c with payload := some e }

/-- Modelled from the spec: `GetPayload` returns the payload, nil when none was set. -/
def GetPayload (c : Ctx) : Option errno.Error := c.payload

/-- Modelled from the spec: `abortError` returns the application-level abort error,
nil when there is none. -/
def abortError (c : Ctx) : Option errno.Error := c.abortErr

/-- Modelled from the spec: `setAlias` stores the metrics alias. -/
def setAlias (c : Ctx) (path : String) : Ctx := { c with aliasName := path }

/-- Modelled from the spec: `Alias` returns the alias, empty when none was set. -/
def Alias (c : Ctx) : String := c.aliasName

/-- Modelled from the spec: `URI` returns the request URI of the context. -/
def URI (c : Ctx) : String := c.uri

/-- Modelled from the spec: `Method` returns the request method. -/
def Method (c : Ctx) : String := c.method

/-- Modelled from the spec: `RawData` returns the cached body bytes. -/
def RawData (c : Ctx) : String := c.rawData

/-- The gin call `ctx.Abort()`: marks the request aborted. -/
def Abort (c : Ctx) : Ctx := { c with aborted := true }

/-- The gin call `ctx.IsAborted()`. -/
def IsAborted (c : Ctx) : Bool := c.aborted

/-- The gin call `ctx.Writer.Status()`. -/
def Status (c : Ctx) : Nat := c.status

end Ctx

/-- One invocation of the `RecordMetrics` callback, with its six arguments. -/
structure MetricsCall where
  method : String
  uri : String
  success : Bool
  httpCode : Nat
  businessCode : Int
  costSeconds : Nat
  deriving DecidableEq, Repr

/-- One `logger.Error("got panic", ...)` record: the fault and the stack. -/
structure PanicRecord where
  fault : Fault
  stack : String
  deriving DecidableEq, Repr

/-- One `ctx.JSON(code, obj)` call. -/
structure JSONCall where
  code : Nat
  obj : errno.Error
  deriving DecidableEq, Repr

/-- What the pipeline did during one request, in order of occurrence per kind:
`logger.Error` records, `logger.Info("interceptor", ...)` records, invocations of the
panic notifier, invocations of the metrics recorder, `ctx.JSON` calls. -/
structure Trace where
  errorLog : List PanicRecord
  infoLog : List journal.Journal
  notified : List PanicRecord
  recorded : List MetricsCall
  json : List JSONCall
  deriving DecidableEq, Repr

/-- The trace at request entry. -/
def Trace.empty : Trace :=
  { errorLog := [], infoLog := [], notified := [], recorded := [], json := [] }

/-- The net effect of user code (the handler chain behind `ctx.Next()`, or the panic
notifier) on the request context, as the unwind phase can observe it, and the fault it
raised if it panicked. User code reaches the journal handle only through
`DisableJournal`: `setJournal` is called by the journal middleware alone. -/
structure Outcome where
  status : Nat
  aborted : Bool
  ginErrors : List String
  payload : Option errno.Error
  abortErr : Option errno.Error
  aliasName : String
  respHeader : Header
  disableJournal : Bool
  fault : Option Fault
  deriving DecidableEq, Repr

/-- The context after user code with the given outcome ran on it. -/
def Ctx.apply (c : Ctx) (o : Outcome) : Ctx :=
  { c with
    status := o.status
    aborted := o.aborted
    ginErrors := o.ginErrors
    payload := o.payload
    abortErr := o.abortErr
    aliasName := o.aliasName
    respHeader := o.respHeader
    journal := if o.disableJournal then none else c.journal }

/-- The outcome of user code that returns without touching the context. -/
def Outcome.keep (c : Ctx) : Outcome :=
  { status := c.status
    aborted := c.aborted
    ginErrors := c.ginErrors
    payload := c.payload
    abortErr := c.abortErr
    aliasName := c.aliasName
    respHeader := c.respHeader
    disableJournal := false
    fault := none }

/-- The rest of a gin handler chain, run by `ctx.Next()`: it transforms the context and
either returns or panics. -/
abbrev Chain := Ctx → Ctx × Option Fault

/-- A handler chain given by its outcome on the context it is entered with. -/
def handlers (h : Ctx → Outcome) : Chain := fun c => (c.apply (h c), (h c).fault)

/-- `OnPanicNotify`: receives the context, the fault and the stack. -/
abbrev OnPanicNotify := Ctx → Fault → String → Outcome

/-- `RecordMetrics`: receives the six arguments; returns, or panics with a fault. -/
abbrev RecordMetrics := MetricsCall → Option Fault

/-- The `option` record of core.go. -/
structure option where
  disablePProf : Bool
  disableSwagger : Bool
  disablePrometheus : Bool
  panicNotify : Option OnPanicNotify
  recordMetrics : Option RecordMetrics
  enableCors : Bool
  enableRate : Bool

/-- The value of `new(option)`: every flag false, both callbacks nil. -/
def option.new : option :=
  { disablePProf := false
    disableSwagger := false
    disablePrometheus := false
    panicNotify := none
    recordMetrics := none
    enableCors := false
    enableRate := false }

/-- The `Option` type of core.go, `func(*option)`: a function updating the option record,
or the nil function value, which is `none`. Outside the package the non-nil values are
the ones the `With...` constructors return. -/
abbrev OptionFn := Option (option → option)

/-- `WithDisablePProf`. -/
def WithDisablePProf : OptionFn := some (fun opt => { opt with disablePProf := true })

/-- `WithDisableSwagger`. -/
def WithDisableSwagger : OptionFn := some (fun opt => { opt with disableSwagger := true })

/-- `WithDisableproPrometheus`. -/
def WithDisableproPrometheus : OptionFn :=
  some (fun opt => { opt with disablePrometheus := true })

/-- `WithPanicNotify`; a nil callback is `none`. -/
def WithPanicNotify (notify : Option OnPanicNotify) : OptionFn :=
  some (fun opt => { opt with panicNotify := notify })

/-- `WithRecordMetrics`; a nil callback is `none`. -/
def WithRecordMetrics (record : Option RecordMetrics) : OptionFn :=
  some (fun opt => { opt with recordMetrics := record })

/-- `WithEnableCors`. -/
def WithEnableCors : OptionFn := some (fun opt => { opt with enableCors := true })

/-- `WithEnableRate`. -/
def WithEnableRate : OptionFn := some (fun opt => { opt with enableRate := true })

/-- The fault of the Go runtime when a nil function value is called. -/
def nilCallFault : Fault := "runtime error: invalid memory address or nil pointer dereference"

/-- The loop `for _, f := range options { f(opt) }` of `New` (core.go lines 265-267): the
options are applied in order; calling a nil option panics. -/
def applyOptions : List OptionFn → option → Except Fault option
  | [], opt => Except.ok opt
  | none :: _, _ => Except.error nilCallFault
  | some f :: fs, opt => applyOptions fs (f opt)

/-- `DisableJournal` as a handler outcome: the handle is cleared, nothing else changes. -/
def DisableJournal (c : Ctx) : Outcome := { Outcome.keep c with disableJournal := true }

/-- `AliasForRecordMetrics(path)` as a handler outcome: the alias is set. -/
def AliasForRecordMetrics (path : String) (c : Ctx) : Outcome :=
  { Outcome.keep c with aliasName := path }

/-- The map literal `withoutJournalPaths` of `New`. -/
def withoutJournalPathsMap : List (String × Bool) :=
  [ ("/metrics", true),
    ("/debug/pprof/", true),
    ("/debug/pprof/cmdline", true),
    ("/debug/pprof/profile", true),
    ("/debug/pprof/symbol", true),
    ("/debug/pprof/trace", true),
    ("/debug/pprof/allocs", true),
    ("/debug/pprof/block", true),
    ("/debug/pprof/goroutine", true),
    ("/debug/pprof/heap", true),
    ("/debug/pprof/mutex", true),
    ("/debug/pprof/threadcreate", true),
    ("/favicon.ico", true) ]

/-- The map read `withoutJournalPaths[path]`: false for a key that is not in the map. -/
def withoutJournalPaths (path : String) : Bool :=
  match withoutJournalPathsMap.lookup path with
  | some b => b
  | none => false

/-- The inbound request as the pipeline reads it: method, `Request.URL.Path`,
`Request.URL.RequestURI()`, the value of `context.URI()`, headers and body. -/
structure HTTPRequest where
  method : String
  path : String
  requestURI : String
  uri : String
  header : Header
  rawData : String
  deriving DecidableEq, Repr

/-- The context gin hands to the first middleware: nothing is set yet, and the writer
status is the one the router chose (200 for a matched route, 404 or 405 otherwise). -/
def Ctx.incoming (r : HTTPRequest) (status : Nat) : Ctx :=
  { method := r.method
    path := r.path
    requestURI := r.requestURI
    uri := r.uri
    header := r.header
    rawData := r.rawData
    status := status
    aborted := false
    ginErrors := []
    payload := none
    abortErr := none
    aliasName := ""
    journal := none
    respHeader := [] }

/-- State of one request after a middleware (or a part of one) ran: the context, the
trace, and the fault that is propagating if the code panicked. -/
structure Run where
  ctx : Ctx
  trace : Trace
  fault : Option Fault
  deriving DecidableEq, Repr

/-- The gin call `ctx.JSON(code, obj)`: the writer status becomes `code` and the
object is rendered. -/
def JSON (c : Ctx) (t : Trace) (code : Nat) (obj : errno.Error) : Ctx × Trace :=
  ({ c with status := code }, { t with json := t.json ++ [{ code := code, obj := obj }] })

/-- Journal set-up at entry of the journal middleware (core.go lines 321-327). -/
def enter (d : Deps) (c : Ctx) : Ctx :=
  if !withoutJournalPaths c.path then
    let journalID := c.GetHeader d.JournalHeader
    if journalID != "" then
      c.setJournal (journal.NewJournal d.mint journalID)
    else
      c.setJournal (journal.NewJournal d.mint "")
  else
    c

/-- The recovery block of the deferred function (core.go lines 330-338): on a fault the
record is logged, the payload is set to `errno.ErrServer` and the notifier, if there is
one, is invoked; a fault of the notifier propagates. -/
def recoverBlock (d : Deps) (opt : option) (c : Ctx) (t : Trace) (err : Option Fault) : Run :=
  match err with
  | none => { ctx := c, trace := t, fault := none }
  | some e =>
    let stackInfo := d.stack
    let t1 := { t with errorLog := t.errorLog ++ [{ fault := e, stack := stackInfo }] }
    let c1 := c.SetPayload d.ErrServer
    match opt.panicNotify with
    | none => { ctx := c1, trace := t1, fault := none }
    | some notify =>
      let o := notify c1 e stackInfo
      { ctx := c1.apply o
        trace := { t1 with notified := t1.notified ++ [{ fault := e, stack := stackInfo }] }
        fault := o.fault }

/-- The combined abort error built with multierr (core.go lines 349-357): the gin errors
followed by the message of the application-level error. The value is not read again. -/
def abortErrOf (c : Ctx) : List String :=
  if c.IsAborted then
    c.ginErrors ++ (match c.abortError with
      | some err => [err.GetMsg]
      | none => [])
  else
    []

/-- The response object chosen by the unifier (core.go lines 349-360): the
application-level abort error when the request is aborted, the payload otherwise. -/
def responseOf (c : Ctx) : Option errno.Error :=
  if c.IsAborted then c.abortError else c.GetPayload

/-- The response unifier (core.go lines 344-370). Returns the context, the trace and the
response object as the later steps see it. -/
def unify (d : Deps) (c : Ctx) (t : Trace) : Ctx × Trace × Option errno.Error :=
  match responseOf c with
  | none => (c, t, none)
  | some response =>
    match c.Journal with
    | some x =>
      let c1 := c.SetHeader d.JournalHeader x.ID
      let response1 := response.WithID x.ID
      let w := JSON c1 t 200 response1
      (w.1, w.2, some response1)
    | none =>
      let response1 := response.WithID ""
      let w := JSON c t 200 response1
      (w.1, w.2, some response1)

/-- The metrics hook (core.go lines 372-384): the recorder, if there is one, is invoked
once; its fault propagates. -/
def metricsHook (d : Deps) (opt : option) (c : Ctx) (t : Trace)
    (response : Option errno.Error) : Trace × Option Fault :=
  match opt.recordMetrics with
  | none => (t, none)
  | some record =>
    let uri := if c.Alias != "" then c.Alias else c.URI
    let businessCode : Int :=
      match response with
      | some r => r.GetCode
      | none => 0
    let call : MetricsCall :=
      { method := c.Method
        uri := uri
        success := !c.IsAborted && c.Status == 200
        httpCode := c.Status
        businessCode := businessCode
        costSeconds := d.sinceAtMetrics }
    ({ t with recorded := t.recorded ++ [call] }, record call)

/-- Journal finalisation (core.go lines 386-412): without a journal handle nothing is
logged, otherwise the entry is completed and logged once. -/
def finalize (d : Deps) (c : Ctx) (t : Trace) (response : Option errno.Error) : Trace :=
  match c.Journal with
  | none => t
  | some x =>
    let decodedURL := d.QueryUnescape c.requestURI
    let j := x.WithRequest
      { TTL := "un-limit"
        Method := c.method
        DecodedURL := decodedURL
        Header := c.header
        Body := c.RawData }
    let j := j.WithResponse
      { Header := c.respHeader
        StatusCode := c.Status
        Status := d.StatusText c.Status
        Body := response }
    let j := { j with Success := !c.IsAborted && c.Status == 200, CostSeconds := d.sinceAtJournal }
    { t with infoLog := t.infoLog ++ [j] }

/-- The deferred function of the journal middleware (core.go lines 329-413), run when
the rest of the chain returned (`err = none`) or panicked (`err = some e`). -/
def unwind (d : Deps) (opt : option) (c : Ctx) (t : Trace) (err : Option Fault) : Run :=
  let r := recoverBlock d opt c t err
  match r.fault with
  | some e => { ctx := r.ctx, trace := r.trace, fault := some e }
  | none =>
    if r.ctx.Status = 404 then
      { ctx := r.ctx, trace := r.trace, fault := none }
    else
      let u := unify d r.ctx r.trace
      let m := metricsHook d opt u.1 u.2.1 u.2.2
      match m.2 with
      | some e => { ctx := u.1, trace := m.1, fault := some e }
      | none => { ctx := u.1, trace := finalize d u.1 m.1 u.2.2, fault := none }

/-- The journal middleware (core.go lines 312-416). -/
def journalMiddleware (d : Deps) (opt : option) (next : Chain) (c : Ctx) (t : Trace) : Run :=
  let c1 := enter d c
  let r := next c1
  unwind d opt r.1 t r.2

/-- The outer recovery middleware (core.go lines 302-310): a fault of the inner part is
logged and stops there. -/
def recoverMiddleware (d : Deps) (next : Ctx → Trace → Run) (c : Ctx) (t : Trace) : Run :=
  let r := next c t
  match r.fault with
  | some e =>
    { ctx := r.ctx
      trace := { r.trace with errorLog := r.trace.errorLog ++ [{ fault := e, stack := d.stack }] }
      fault := none }
  | none => r

/-- The rate gate (core.go lines 420-430); `allow` is the answer of `limiter.Allow()`. -/
def rateGate (d : Deps) (allow : Bool) (next : Chain) : Chain := fun c =>
  if !allow then
    ((c.SetPayload d.ErrManyRequest).Abort, none)
  else
    next c

/-- The chain behind the journal middleware: the rate gate when it is enabled, then the
handlers. -/
def chain (d : Deps) (opt : option) (allow : Bool) (h : Ctx → Outcome) : Chain :=
  if opt.enableRate then rateGate d allow (handlers h) else handlers h

/-- One request through the middlewares installed by `New`: outer recovery, journal
middleware, rate gate if enabled, handlers. -/
def ServeHTTP (d : Deps) (opt : option) (allow : Bool) (h : Ctx → Outcome)
    (r : HTTPRequest) (status : Nat) : Run :=
  recoverMiddleware d (journalMiddleware d opt (chain d opt allow h))
    (Ctx.incoming r status) Trace.empty

/-- The request as it leaves the journal middleware, before the outer recovery. -/
def serveInner (d : Deps) (opt : option) (allow : Bool) (h : Ctx → Outcome)
    (r : HTTPRequest) (status : Nat) : Run :=
  journalMiddleware d opt (chain d opt allow h) (Ctx.incoming r status) Trace.empty

/-- A zap logger; nil is `none` of `Option Logger`. -/
structure Logger where
  name : String
  deriving DecidableEq, Repr

/-- The `mux` built by `New`: the folded options and what was registered on the engine. -/
structure mux where
  opt : option
  routes : List String
  middlewares : List String

/-- The function `New` up to its return value (core.go lines 232-455): it either returns
the pair of the Mux and the error, nil being `none`, or panics with a fault. -/
def New (logger : Option Logger) (options : List OptionFn) :
    Except Fault (Option mux × Option String) :=
  match logger with
  | none => Except.ok (none, some "logger required")
  | some _ =>
    match applyOptions options option.new with
    | Except.error e => Except.error e
    | Except.ok opt =>
      let routes : List String :=
        (if !opt.disablePProf then ["/debug/pprof/*"] else []) ++
        (if !opt.disableSwagger then ["/swagger/*any"] else []) ++
        (if !opt.disablePrometheus then ["/metrics"] else []) ++
        ["/h/ping", "/h/info"]
      let middlewares : List String :=
        (if opt.enableCors then ["cors"] else []) ++ ["recover", "journal"] ++
        (if opt.enableRate then ["rate"] else [])
      Except.ok (some { opt := opt, routes := routes, middlewares := middlewares }, none)

/-- Context and fault with which the deferred function of the journal middleware is
entered: what the chain behind the middleware left. -/
def atDefer (d : Deps) (opt : option) (allow : Bool) (h : Ctx → Outcome)
    (r : HTTPRequest) (status : Nat) : Ctx × Option Fault :=
  chain d opt allow h (enter d (Ctx.incoming r status))

/-- The request after the recovery block of the deferred function, where the response
unifier starts. -/
def atUnify (d : Deps) (opt : option) (allow : Bool) (h : Ctx → Outcome)
    (r : HTTPRequest) (status : Nat) : Run :=
  recoverBlock d opt (atDefer d opt allow h r status).1 Trace.empty
    (atDefer d opt allow h r status).2

/-! ## Concrete data used to evaluate the pipeline -/

/-- A concrete choice of the outside declarations. -/
def demoDeps : Deps :=
  { JournalHeader := "Journal-Id"
    ErrServer := { code := 10101, msg := "Internal Server Error", data := "", id := "" }
    ErrManyRequest := { code := 10102, msg := "Too Many Requests", data := "", id := "" }
    mint := "minted"
    stack := "goroutine 1 [running]"
    StatusText := fun n => if n = 200 then "OK" else ""
    QueryUnescape := fun s => s
    sinceAtMetrics := 1
    sinceAtJournal := 2 }

/-- A request to a journalled path without a correlation header. -/
def demoRequest : HTTPRequest :=
  { method := "GET"
    path := "/api/user/7"
    requestURI := "/api/user/7"
    uri := "/api/user/7"
    header := []
    rawData := "" }

/-- The same request carrying the correlation header with value `abc`. -/
def tracedRequest : HTTPRequest := { demoRequest with header := [("Journal-Id", "abc")] }

/-- A metrics recorder that returns normally. -/
def quietRecorder : RecordMetrics := fun _ => none

/-- Options with the rate gate enabled and a metrics recorder. -/
def demoOption : option :=
  { option.new with enableRate := true, recordMetrics := some quietRecorder }

/-- A handler that sets the payload `p` and returns. -/
def payloadHandler (p : errno.Error) (c : Ctx) : Outcome :=
  { Outcome.keep c with payload := some p }

/-- A success envelope. -/
def okPayload : errno.Error := { code := 0, msg := "OK", data := "pong", id := "" }

/-- The id written into the envelope: the id of the journal, empty without one. -/
def envelopeID (c : Ctx) : String :=
  match c.journal with
  | some x => x.id
  | none => ""

/-- The paths named as excluded from journalling. -/
def excludedPaths : List String :=
  [ "/metrics", "/favicon.ico", "/debug/pprof/", "/debug/pprof/cmdline",
    "/debug/pprof/profile", "/debug/pprof/symbol", "/debug/pprof/trace",
    "/debug/pprof/allocs", "/debug/pprof/block", "/debug/pprof/goroutine",
    "/debug/pprof/heap", "/debug/pprof/mutex", "/debug/pprof/threadcreate" ]

/-- An application-level error, as a handler passes to `AbortWithError`. -/
def appError : errno.Error := { code := 20001, msg := "user not found", data := "", id := "" }

/-- A handler that leaves the transport status 404 and panics. -/
def panicAt404 (c : Ctx) : Outcome :=
  { Outcome.keep c with status := 404, fault := some "boom" }

/-- A handler that aborts with an application-level error and then panics. -/
def abortThenPanic (c : Ctx) : Outcome :=
  { Outcome.keep c with aborted := true, abortErr := some appError, fault := some "boom" }

/-- A handler that panics without touching the context. -/
def panicHandler (c : Ctx) : Outcome := { Outcome.keep c with fault := some "boom" }

/-- A handler that leaves the transport status 404 and returns. -/
def notFoundHandler (c : Ctx) : Outcome := { Outcome.keep c with status := 404 }

/-- A panic notifier that returns normally and leaves the context as it is. -/
def quietNotifier : OnPanicNotify := fun c _ _ => Outcome.keep c

/-- Options with the rate gate, a metrics recorder and a panic notifier. -/
def notifyOption : option := { demoOption with panicNotify := some quietNotifier }


/-- A panic notifier that itself panics. -/
def faultyNotifier : OnPanicNotify :=
  fun c _ _ => { Outcome.keep c with fault := some "notify failed" }

/-- Options with a panic notifier that itself panics. -/
def faultyOption : option := { demoOption with panicNotify := some faultyNotifier }

/-- A handler that sets the alias "/api/user/:id" and then panics. -/
def aliasThenPanic (c : Ctx) : Outcome :=
  { AliasForRecordMetrics "/api/user/:id" c with fault := some "boom" }

/-- A panic notifier that sets the alias "/from-notifier" on the context it receives. -/
def aliasNotifier : OnPanicNotify := fun c _ _ => AliasForRecordMetrics "/from-notifier" c

/-- Options with a metrics recorder and a panic notifier that sets an alias. -/
def aliasNotifyOption : option := { demoOption with panicNotify := some aliasNotifier }

/-- A logger. -/
def demoLogger : Logger := { name := "zap" }

/-! ## Auxiliary facts about the parts of the pipeline -/

theorem recoverMiddleware_fault (d : Deps) (next : Ctx → Trace → Run) (c : Ctx) (t : Trace) :
    (recoverMiddleware d next c t).fault = none := by
  unfold recoverMiddleware
  cases hf : (next c t).fault <;> simp [hf]

theorem recoverMiddleware_ctx (d : Deps) (next : Ctx → Trace → Run) (c : Ctx) (t : Trace) :
    (recoverMiddleware d next c t).ctx = (next c t).ctx := by
  unfold recoverMiddleware
  cases hf : (next c t).fault <;> simp [hf]

theorem recoverMiddleware_json (d : Deps) (next : Ctx → Trace → Run) (c : Ctx) (t : Trace) :
    (recoverMiddleware d next c t).trace.json = (next c t).trace.json := by
  unfold recoverMiddleware
  cases hf : (next c t).fault <;> simp [hf]

theorem recoverMiddleware_infoLog (d : Deps) (next : Ctx → Trace → Run) (c : Ctx) (t : Trace) :
    (recoverMiddleware d next c t).trace.infoLog = (next c t).trace.infoLog := by
  unfold recoverMiddleware
  cases hf : (next c t).fault <;> simp [hf]

theorem recoverMiddleware_recorded (d : Deps) (next : Ctx → Trace → Run) (c : Ctx) (t : Trace) :
    (recoverMiddleware d next c t).trace.recorded = (next c t).trace.recorded := by
  unfold recoverMiddleware
  cases hf : (next c t).fault <;> simp [hf]

theorem unify_of_none (d : Deps) (c : Ctx) (t : Trace) (h : responseOf c = none) :
    unify d c t = (c, t, none) := by
  simp [unify, h]

theorem unify_of_some (d : Deps) (c : Ctx) (t : Trace) (resp : errno.Error)
    (h : responseOf c = some resp) :
    unify d c t =
      ({ c with
          status := 200
          respHeader := (match c.journal with
            | some x => c.respHeader.set d.JournalHeader x.id
            | none => c.respHeader) },
        { t with json := t.json ++ [{ code := 200, obj := { resp with id := envelopeID c } }] },
        some { resp with id := envelopeID c }) := by
  cases hj : c.journal <;>
    simp [unify, h, hj, Ctx.Journal, JSON, Ctx.SetHeader, errno.Error.WithID, journal.Journal.ID,
      envelopeID]

theorem unify_journal (d : Deps) (c : Ctx) (t : Trace) : (unify d c t).1.journal = c.journal := by
  cases h : responseOf c with
  | none => rw [unify_of_none d c t h]
  | some resp => rw [unify_of_some d c t resp h]

theorem unify_aliasName (d : Deps) (c : Ctx) (t : Trace) :
    (unify d c t).1.aliasName = c.aliasName := by
  cases h : responseOf c with
  | none => rw [unify_of_none d c t h]
  | some resp => rw [unify_of_some d c t resp h]

theorem unify_uri (d : Deps) (c : Ctx) (t : Trace) : (unify d c t).1.uri = c.uri := by
  cases h : responseOf c with
  | none => rw [unify_of_none d c t h]
  | some resp => rw [unify_of_some d c t resp h]

theorem unify_aborted (d : Deps) (c : Ctx) (t : Trace) :
    (unify d c t).1.aborted = c.aborted := by
  cases h : responseOf c with
  | none => rw [unify_of_none d c t h]
  | some resp => rw [unify_of_some d c t resp h]

theorem unify_infoLog (d : Deps) (c : Ctx) (t : Trace) :
    (unify d c t).2.1.infoLog = t.infoLog := by
  cases h : responseOf c with
  | none => rw [unify_of_none d c t h]
  | some resp => rw [unify_of_some d c t resp h]

theorem unify_recorded (d : Deps) (c : Ctx) (t : Trace) :
    (unify d c t).2.1.recorded = t.recorded := by
  cases h : responseOf c with
  | none => rw [unify_of_none d c t h]
  | some resp => rw [unify_of_some d c t resp h]

theorem metricsHook_json (d : Deps) (opt : option) (c : Ctx) (t : Trace)
    (response : Option errno.Error) : (metricsHook d opt c t response).1.json = t.json := by
  unfold metricsHook
  cases opt.recordMetrics <;> rfl

theorem metricsHook_infoLog (d : Deps) (opt : option) (c : Ctx) (t : Trace)
    (response : Option errno.Error) : (metricsHook d opt c t response).1.infoLog = t.infoLog := by
  unfold metricsHook
  cases opt.recordMetrics <;> rfl

theorem finalize_json (d : Deps) (c : Ctx) (t : Trace) (response : Option errno.Error) :
    (finalize d c t response).json = t.json := by
  unfold finalize
  cases c.Journal <;> rfl

theorem finalize_recorded (d : Deps) (c : Ctx) (t : Trace) (response : Option errno.Error) :
    (finalize d c t response).recorded = t.recorded := by
  unfold finalize
  cases c.Journal <;> rfl

/-- The deferred function when the recovery block ends with a fault of the notifier. -/
theorem unwind_of_fault (d : Deps) (opt : option) (c : Ctx) (t : Trace) (err : Option Fault)
    (e : Fault) (h : (recoverBlock d opt c t err).fault = some e) :
    unwind d opt c t err =
      { ctx := (recoverBlock d opt c t err).ctx
        trace := (recoverBlock d opt c t err).trace
        fault := some e } := by
  simp [unwind, h]

/-- The deferred function at status 404: the early return. -/
theorem unwind_of_404 (d : Deps) (opt : option) (c : Ctx) (t : Trace) (err : Option Fault)
    (h : (recoverBlock d opt c t err).fault = none)
    (h404 : (recoverBlock d opt c t err).ctx.status = 404) :
    unwind d opt c t err =
      { ctx := (recoverBlock d opt c t err).ctx
        trace := (recoverBlock d opt c t err).trace
        fault := none } := by
  simp [unwind, h, h404, Ctx.Status]

theorem unwind_ctx (d : Deps) (opt : option) (c : Ctx) (t : Trace) (err : Option Fault)
    (h : (recoverBlock d opt c t err).fault = none)
    (h404 : (recoverBlock d opt c t err).ctx.status ≠ 404) :
    (unwind d opt c t err).ctx =
      (unify d (recoverBlock d opt c t err).ctx (recoverBlock d opt c t err).trace).1 := by
  simp only [unwind, h, Ctx.Status, h404, if_false]
  split <;> rfl

theorem unwind_json (d : Deps) (opt : option) (c : Ctx) (t : Trace) (err : Option Fault)
    (h : (recoverBlock d opt c t err).fault = none)
    (h404 : (recoverBlock d opt c t err).ctx.status ≠ 404) :
    (unwind d opt c t err).trace.json =
      (unify d (recoverBlock d opt c t err).ctx (recoverBlock d opt c t err).trace).2.1.json := by
  simp only [unwind, h, Ctx.Status, h404, if_false]
  split <;> simp [metricsHook_json, finalize_json]


theorem recoverBlock_json (d : Deps) (opt : option) (c : Ctx) (t : Trace) (err : Option Fault) :
    (recoverBlock d opt c t err).trace.json = t.json := by
  unfold recoverBlock
  cases err <;> cases opt.panicNotify <;> rfl

theorem recoverBlock_infoLog (d : Deps) (opt : option) (c : Ctx) (t : Trace)
    (err : Option Fault) : (recoverBlock d opt c t err).trace.infoLog = t.infoLog := by
  unfold recoverBlock
  cases err <;> cases opt.panicNotify <;> rfl

theorem recoverBlock_recorded (d : Deps) (opt : option) (c : Ctx) (t : Trace)
    (err : Option Fault) : (recoverBlock d opt c t err).trace.recorded = t.recorded := by
  unfold recoverBlock
  cases err <;> cases opt.panicNotify <;> rfl

theorem apply_journal (c : Ctx) (o : Outcome) :
    (c.apply o).journal = c.journal ∨ (c.apply o).journal = none := by
  unfold Ctx.apply
  cases o.disableJournal <;> simp

theorem recoverBlock_journal (d : Deps) (opt : option) (c : Ctx) (t : Trace)
    (err : Option Fault) :
    (recoverBlock d opt c t err).ctx.journal = c.journal ∨
      (recoverBlock d opt c t err).ctx.journal = none := by
  unfold recoverBlock
  cases err with
  | none => exact Or.inl rfl
  | some e =>
    cases opt.panicNotify with
    | none => exact Or.inl rfl
    | some n => exact apply_journal _ _

theorem chain_journal (d : Deps) (opt : option) (allow : Bool) (h : Ctx → Outcome) (c : Ctx) :
    (chain d opt allow h c).1.journal = c.journal ∨ (chain d opt allow h c).1.journal = none := by
  unfold chain rateGate handlers
  cases opt.enableRate <;> cases allow <;>
    first
      | exact apply_journal _ _
      | exact Or.inl rfl

theorem unwind_recorded (d : Deps) (opt : option) (c : Ctx) (t : Trace) (err : Option Fault)
    (h : (recoverBlock d opt c t err).fault = none)
    (h404 : (recoverBlock d opt c t err).ctx.status ≠ 404) :
    (unwind d opt c t err).trace.recorded =
      (metricsHook d opt
        (unify d (recoverBlock d opt c t err).ctx (recoverBlock d opt c t err).trace).1
        (unify d (recoverBlock d opt c t err).ctx (recoverBlock d opt c t err).trace).2.1
        (unify d (recoverBlock d opt c t err).ctx
          (recoverBlock d opt c t err).trace).2.2).1.recorded := by
  simp only [unwind, h, Ctx.Status, h404, if_false]
  split <;> simp [finalize_recorded]

theorem unwind_infoLog (d : Deps) (opt : option) (c : Ctx) (t : Trace) (err : Option Fault)
    (h : (recoverBlock d opt c t err).fault = none)
    (h404 : (recoverBlock d opt c t err).ctx.status ≠ 404)
    (hm : ∀ rec call, opt.recordMetrics = some rec → rec call = none) :
    (unwind d opt c t err).trace.infoLog =
      (finalize d
        (unify d (recoverBlock d opt c t err).ctx (recoverBlock d opt c t err).trace).1
        (metricsHook d opt
          (unify d (recoverBlock d opt c t err).ctx (recoverBlock d opt c t err).trace).1
          (unify d (recoverBlock d opt c t err).ctx (recoverBlock d opt c t err).trace).2.1
          (unify d (recoverBlock d opt c t err).ctx (recoverBlock d opt c t err).trace).2.2).1
        (unify d (recoverBlock d opt c t err).ctx
          (recoverBlock d opt c t err).trace).2.2).infoLog := by
  have hnone : ∀ c1 t1 resp, (metricsHook d opt c1 t1 resp).2 = none := by
    intro c1 t1 resp
    unfold metricsHook
    cases hr : opt.recordMetrics with
    | none => rfl
    | some rec => exact hm rec _ hr
  simp only [unwind, h, Ctx.Status, h404, if_false, hnone]

/-- Without a journal handle at the unifier, the deferred function logs no entry. -/
theorem unwind_infoLog_of_no_journal (d : Deps) (opt : option) (c : Ctx) (t : Trace)
    (err : Option Fault) (hj : (recoverBlock d opt c t err).ctx.journal = none) :
    (unwind d opt c t err).trace.infoLog = t.infoLog := by
  cases hf : (recoverBlock d opt c t err).fault with
  | some e => rw [unwind_of_fault d opt c t err e hf]; exact recoverBlock_infoLog d opt c t err
  | none =>
    by_cases h404 : (recoverBlock d opt c t err).ctx.status = 404
    · rw [unwind_of_404 d opt c t err hf h404]; exact recoverBlock_infoLog d opt c t err
    · simp only [unwind, hf, Ctx.Status, h404, if_false]
      split
      · simp [metricsHook_infoLog, unify_infoLog, recoverBlock_infoLog]
      · simp [finalize, Ctx.Journal, unify_journal, hj, metricsHook_infoLog, unify_infoLog,
          recoverBlock_infoLog]


theorem ServeHTTP_json (d : Deps) (opt : option) (allow : Bool) (h : Ctx → Outcome)
    (r : HTTPRequest) (status : Nat) :
    (ServeHTTP d opt allow h r status).trace.json =
      (unwind d opt (atDefer d opt allow h r status).1 Trace.empty
        (atDefer d opt allow h r status).2).trace.json :=
  recoverMiddleware_json d _ _ _

theorem ServeHTTP_infoLog (d : Deps) (opt : option) (allow : Bool) (h : Ctx → Outcome)
    (r : HTTPRequest) (status : Nat) :
    (ServeHTTP d opt allow h r status).trace.infoLog =
      (unwind d opt (atDefer d opt allow h r status).1 Trace.empty
        (atDefer d opt allow h r status).2).trace.infoLog :=
  recoverMiddleware_infoLog d _ _ _

theorem ServeHTTP_recorded (d : Deps) (opt : option) (allow : Bool) (h : Ctx → Outcome)
    (r : HTTPRequest) (status : Nat) :
    (ServeHTTP d opt allow h r status).trace.recorded =
      (unwind d opt (atDefer d opt allow h r status).1 Trace.empty
        (atDefer d opt allow h r status).2).trace.recorded :=
  recoverMiddleware_recorded d _ _ _

theorem ServeHTTP_ctx (d : Deps) (opt : option) (allow : Bool) (h : Ctx → Outcome)
    (r : HTTPRequest) (status : Nat) :
    (ServeHTTP d opt allow h r status).ctx =
      (unwind d opt (atDefer d opt allow h r status).1 Trace.empty
        (atDefer d opt allow h r status).2).ctx :=
  recoverMiddleware_ctx d _ _ _

theorem enter_abortErr (d : Deps) (c : Ctx) : (enter d c).abortErr = c.abortErr := by
  unfold enter
  by_cases h1 : (!withoutJournalPaths c.path) = true
  · by_cases h2 : (c.GetHeader d.JournalHeader != "") = true <;> simp [h1, h2, Ctx.setJournal]
  · simp [h1]

theorem enter_status (d : Deps) (c : Ctx) : (enter d c).status = c.status := by
  unfold enter
  by_cases h1 : (!withoutJournalPaths c.path) = true
  · by_cases h2 : (c.GetHeader d.JournalHeader != "") = true <;> simp [h1, h2, Ctx.setJournal]
  · simp [h1]

/-- The chain behind the journal middleware when the rate gate is enabled and denies. -/
theorem atDefer_of_denied (d : Deps) (opt : option) (h : Ctx → Outcome) (r : HTTPRequest)
    (status : Nat) (hrate : opt.enableRate = true) :
    atDefer d opt false h r status =
      (((enter d (Ctx.incoming r status)).SetPayload d.ErrManyRequest).Abort, none) := by
  simp [atDefer, chain, hrate, rateGate]

/-- C1: what the code does for a request that the rate gate denies. The gate sets the
payload to `errno.ErrManyRequest` and aborts; the unifier of an aborted request reads the
application-level abort error, which nobody set, so that no `ctx.JSON` call is made: the
client receives no envelope with the rate-limit code. -/
theorem rate_gate_denial_writes_no_envelope (d : Deps) (opt : option) (h : Ctx → Outcome)
    (r : HTTPRequest) (status : Nat) (hrate : opt.enableRate = true) :
    (ServeHTTP d opt false h r status).ctx.payload = some d.ErrManyRequest ∧
    (ServeHTTP d opt false h r status).ctx.aborted = true ∧
    (ServeHTTP d opt false h r status).trace.json = [] := by
  have hd := atDefer_of_denied d opt h r status hrate
  obtain ⟨cD, hcD⟩ : ∃ cD, cD = ((enter d (Ctx.incoming r status)).SetPayload d.ErrManyRequest).Abort :=
    ⟨_, rfl⟩
  have hresp : responseOf cD = none := by
    simp [hcD, responseOf, Ctx.IsAborted, Ctx.Abort, Ctx.SetPayload, Ctx.abortError,
      enter_abortErr, Ctx.incoming]
  have hstatus : cD.status = status := by
    simp [hcD, Ctx.Abort, Ctx.SetPayload, enter_status, Ctx.incoming]
  have hpay : cD.payload = some d.ErrManyRequest ∧ cD.aborted = true := by
    simp [hcD, Ctx.Abort, Ctx.SetPayload]
  rw [ServeHTTP_json, ServeHTTP_ctx, hd, ← hcD]
  have hf : (recoverBlock d opt cD Trace.empty none).fault = none := rfl
  have hc : (recoverBlock d opt cD Trace.empty none).ctx = cD := rfl
  have ht : (recoverBlock d opt cD Trace.empty none).trace = Trace.empty := rfl
  by_cases h404 : status = 404
  · have h1 : (recoverBlock d opt cD Trace.empty none).ctx.status = 404 := by
      rw [hc, hstatus, h404]
    rw [unwind_of_404 d opt cD Trace.empty none hf h1]
    exact ⟨by rw [hc]; exact hpay.1, by rw [hc]; exact hpay.2, by rw [ht]; rfl⟩
  · have h1 : (recoverBlock d opt cD Trace.empty none).ctx.status ≠ 404 := by
      rw [hc, hstatus]; exact h404
    rw [unwind_json d opt cD Trace.empty none hf h1, unwind_ctx d opt cD Trace.empty none hf h1,
      hc, ht, unify_of_none d cD Trace.empty hresp]
    exact ⟨hpay.1, hpay.2, rfl⟩

/-- C1, evaluated: a denied request to a journalled path with the default status 200. -/
theorem rate_gate_denial_writes_no_envelope_witness :
    demoOption.enableRate = true ∧
    (ServeHTTP demoDeps demoOption false (payloadHandler okPayload) demoRequest 200).ctx.payload
      = some demoDeps.ErrManyRequest ∧
    (ServeHTTP demoDeps demoOption false (payloadHandler okPayload) demoRequest 200).ctx.aborted
      = true ∧
    (ServeHTTP demoDeps demoOption false (payloadHandler okPayload) demoRequest 200).trace.json
      = [] :=
  ⟨rfl, rate_gate_denial_writes_no_envelope demoDeps demoOption (payloadHandler okPayload)
    demoRequest 200 rfl⟩


/-- C8: faults never escape the pipeline. For every handler chain, panicking or not,
every panic notifier (including one that itself panics) and every metrics recorder,
the request leaves the outer recovery middleware without a propagating fault. -/
theorem faults_never_escape (d : Deps) (opt : option) (allow : Bool) (h : Ctx → Outcome)
    (r : HTTPRequest) (status : Nat) :
    (ServeHTTP d opt allow h r status).fault = none :=
  recoverMiddleware_fault d _ _ _

theorem applyOptions_of_non_nil (options : List OptionFn) (opt : option)
    (hnil : ∀ f ∈ options, f ≠ none) : ∃ opt1, applyOptions options opt = Except.ok opt1 := by
  induction options generalizing opt with
  | nil => exact ⟨opt, rfl⟩
  | cons f fs ih =>
    cases f with
    | none => exact absurd rfl (hnil none (List.mem_cons_self _ _))
    | some g =>
      exact ih (g opt) (fun f1 hf1 => hnil f1 (List.mem_cons_of_mem _ hf1))

theorem applyOptions_of_nil (options : List OptionFn) (opt : option)
    (hnil : none ∈ options) : applyOptions options opt = Except.error nilCallFault := by
  induction options generalizing opt with
  | nil => exact absurd hnil (List.not_mem_nil _)
  | cons f fs ih =>
    cases f with
    | none => rfl
    | some g =>
      rcases List.mem_cons.1 hnil with h1 | h1
      · exact absurd h1 (by simp)
      · exact ih (g opt) h1

/-- The options as applied by `New` to the constructors of the sample option record. -/
theorem applyOptions_demo :
    (applyOptions [WithEnableRate, WithRecordMetrics (some quietRecorder)] option.new).toOption.map
        (fun o => (o.enableRate, o.enableCors, o.recordMetrics.isSome, o.panicNotify.isSome))
      = some (true, false, true, false) := rfl

/-- C9 as amended: `New(nil, options...)` returns a nil Mux and the error "logger
required" for every list of options, nil options included; with a logger, `New` returns a
Mux and a nil error for every list of options none of which is the nil function, and it
panics at `f(opt)`, returning nothing, when the list holds a nil option. -/
theorem New_result (options : List OptionFn) :
    New none options = Except.ok (none, some "logger required") ∧
    (∀ logger : Logger, (∀ f ∈ options, f ≠ none) →
      ∃ m, New (some logger) options = Except.ok (some m, none)) ∧
    (∀ logger : Logger, none ∈ options →
      New (some logger) options = Except.error nilCallFault) := by
  refine ⟨rfl, fun logger hnil => ?_, fun logger hnil => ?_⟩
  · obtain ⟨opt1, h1⟩ := applyOptions_of_non_nil options option.new hnil
    simp only [New, h1]
    exact ⟨_, rfl⟩
  · simp only [New, applyOptions_of_nil options option.new hnil]

/-- C9 as amended, at the options `WithEnableRate()` and `WithDisableSwagger()`. -/
theorem New_result_witness :
    New none [WithEnableRate, WithDisableSwagger] = Except.ok (none, some "logger required") ∧
    (∃ m, New (some demoLogger) [WithEnableRate, WithDisableSwagger] = Except.ok (some m, none)) ∧
    New (some demoLogger) [WithEnableRate, none] = Except.error nilCallFault :=
  ⟨(New_result [WithEnableRate, WithDisableSwagger]).1,
    (New_result [WithEnableRate, WithDisableSwagger]).2.1 demoLogger (by
      intro f hf
      simp only [List.mem_cons, List.mem_singleton, List.not_mem_nil, or_false] at hf
      rcases hf with h1 | h1 <;> rw [h1] <;> simp [WithEnableRate, WithDisableSwagger]),
    (New_result [WithEnableRate, none]).2.2 demoLogger (by simp)⟩

/-- C9 refuted as stated: with a logger and the one-element option list holding the nil
option, `New` panics and returns neither a Mux nor an error. -/
theorem New_panics_on_nil_option :
    New (some demoLogger) [none] = Except.error nilCallFault ∧
    ¬ ∃ m err, New (some demoLogger) [none] = Except.ok (m, err) := by
  refine ⟨rfl, ?_⟩
  rintro ⟨m, err, h⟩
  have h1 : New (some demoLogger) [none] = Except.error nilCallFault := rfl
  rw [h1] at h
  cases h

/-- C10: the decision of the response unifier. For every request state at unwind with no
panic, the `ctx.JSON` calls of the deferred function are: none when the transport status
is 404 or there is no response object, and otherwise exactly one call with status
argument 200, where the response object is the application-level abort error when the
request is aborted and the payload when it is not, and the written envelope carries the
id of the journal when there is one and the empty id otherwise. -/
theorem unifier_decision (d : Deps) (opt : option) (c : Ctx) :
    (unwind d opt c Trace.empty none).trace.json =
      match (if c.status = 404 then none
             else if c.aborted = true then c.abortErr else c.payload) with
      | none => []
      | some response =>
        [{ code := 200
           obj := { response with id := (match c.journal with
                                         | some x => x.id
                                         | none => "") } }] := by
  have hf : (recoverBlock d opt c Trace.empty none).fault = none := rfl
  have hc : (recoverBlock d opt c Trace.empty none).ctx = c := rfl
  have ht : (recoverBlock d opt c Trace.empty none).trace = Trace.empty := rfl
  by_cases h404 : c.status = 404
  · rw [unwind_of_404 d opt c Trace.empty none hf (by rw [hc]; exact h404)]
    simp only [ht, h404, if_true]
    rfl
  · rw [unwind_json d opt c Trace.empty none hf (by rw [hc]; exact h404), hc, ht]
    have hresp : responseOf c = if c.aborted = true then c.abortErr else c.payload := rfl
    cases hr : responseOf c with
    | none =>
      rw [unify_of_none d c Trace.empty hr]
      rw [hresp] at hr
      simp [h404, hr, Trace.empty]
    | some resp =>
      rw [unify_of_some d c Trace.empty resp hr]
      rw [hresp] at hr
      simp [h404, hr, Trace.empty, envelopeID]

theorem withoutJournalPaths_of_excluded (p : String) (hp : p ∈ excludedPaths) :
    withoutJournalPaths p = true := by
  simp only [excludedPaths, List.mem_cons, List.mem_singleton, List.not_mem_nil, or_false] at hp
  rcases hp with h | h | h | h | h | h | h | h | h | h | h | h | h <;> subst h <;> rfl


theorem unwind_ctx_cases (d : Deps) (opt : option) (c : Ctx) (t : Trace) (err : Option Fault) :
    (unwind d opt c t err).ctx = (recoverBlock d opt c t err).ctx ∨
    (unwind d opt c t err).ctx =
      (unify d (recoverBlock d opt c t err).ctx (recoverBlock d opt c t err).trace).1 := by
  cases hf : (recoverBlock d opt c t err).fault with
  | some e => rw [unwind_of_fault d opt c t err e hf]; exact Or.inl rfl
  | none =>
    by_cases h404 : (recoverBlock d opt c t err).ctx.status = 404
    · rw [unwind_of_404 d opt c t err hf h404]; exact Or.inl rfl
    · exact Or.inr (unwind_ctx d opt c t err hf h404)

theorem unwind_journal (d : Deps) (opt : option) (c : Ctx) (t : Trace) (err : Option Fault) :
    (unwind d opt c t err).ctx.journal = (recoverBlock d opt c t err).ctx.journal := by
  rcases unwind_ctx_cases d opt c t err with h | h <;> rw [h]
  exact unify_journal _ _ _

theorem unwind_aliasName (d : Deps) (opt : option) (c : Ctx) (t : Trace) (err : Option Fault) :
    (unwind d opt c t err).ctx.aliasName = (recoverBlock d opt c t err).ctx.aliasName := by
  rcases unwind_ctx_cases d opt c t err with h | h <;> rw [h]
  exact unify_aliasName _ _ _

theorem unwind_uri (d : Deps) (opt : option) (c : Ctx) (t : Trace) (err : Option Fault) :
    (unwind d opt c t err).ctx.uri = (recoverBlock d opt c t err).ctx.uri := by
  rcases unwind_ctx_cases d opt c t err with h | h <;> rw [h]
  exact unify_uri _ _ _

theorem recoverBlock_uri (d : Deps) (opt : option) (c : Ctx) (t : Trace) (err : Option Fault) :
    (recoverBlock d opt c t err).ctx.uri = c.uri := by
  unfold recoverBlock
  cases err <;> cases opt.panicNotify <;> rfl

theorem chain_uri (d : Deps) (opt : option) (allow : Bool) (h : Ctx → Outcome) (c : Ctx) :
    (chain d opt allow h c).1.uri = c.uri := by
  unfold chain rateGate handlers
  cases opt.enableRate <;> cases allow <;> rfl

theorem enter_uri (d : Deps) (c : Ctx) : (enter d c).uri = c.uri := by
  unfold enter
  by_cases h1 : (!withoutJournalPaths c.path) = true
  · by_cases h2 : (c.GetHeader d.JournalHeader != "") = true <;> simp [h1, h2, Ctx.setJournal]
  · simp [h1]

theorem enter_of_excluded (d : Deps) (c : Ctx) (hp : withoutJournalPaths c.path = true) :
    enter d c = c := by
  simp [enter, hp]

theorem atDefer_uri (d : Deps) (opt : option) (allow : Bool) (h : Ctx → Outcome)
    (r : HTTPRequest) (status : Nat) : (atDefer d opt allow h r status).1.uri = r.uri := by
  unfold atDefer
  rw [chain_uri, enter_uri]
  rfl

/-- C6: requests to excluded paths are not journalled. For every request whose path is
one of "/metrics", "/favicon.ico", "/debug/pprof/" and the ten listed pprof paths, and for
every handler outcome (returning or panicking, any status, aborted or not), notifier and
recorder, the journal middleware attaches no journal to the context, the context leaves
the pipeline without one, and no journal entry is logged. -/
theorem excluded_paths_not_journalled (d : Deps) (opt : option) (allow : Bool)
    (h : Ctx → Outcome) (r : HTTPRequest) (status : Nat) (hpath : r.path ∈ excludedPaths) :
    (enter d (Ctx.incoming r status)).journal = none ∧
    (ServeHTTP d opt allow h r status).ctx.journal = none ∧
    (ServeHTTP d opt allow h r status).trace.infoLog = [] := by
  have hex : withoutJournalPaths (Ctx.incoming r status).path = true :=
    withoutJournalPaths_of_excluded r.path hpath
  have h0 : (enter d (Ctx.incoming r status)).journal = none := by
    rw [enter_of_excluded d _ hex]; rfl
  have h1 : (atDefer d opt allow h r status).1.journal = none := by
    rcases chain_journal d opt allow h (enter d (Ctx.incoming r status)) with hc | hc
    · unfold atDefer; rw [hc, h0]
    · exact hc
  have h2 : (recoverBlock d opt (atDefer d opt allow h r status).1 Trace.empty
      (atDefer d opt allow h r status).2).ctx.journal = none := by
    rcases recoverBlock_journal d opt (atDefer d opt allow h r status).1 Trace.empty
      (atDefer d opt allow h r status).2 with hc | hc
    · rw [hc, h1]
    · exact hc
  refine ⟨h0, ?_, ?_⟩
  · rw [ServeHTTP_ctx, unwind_journal, h2]
  · rw [ServeHTTP_infoLog, unwind_infoLog_of_no_journal d opt _ _ _ h2]
    rfl

/-- C6, at the path "/debug/pprof/heap" with a handler that panics. -/
theorem excluded_paths_not_journalled_witness :
    (enter demoDeps (Ctx.incoming { tracedRequest with path := "/debug/pprof/heap" } 200)).journal
      = none ∧
    (ServeHTTP demoDeps demoOption true (fun c => { Outcome.keep c with fault := some "boom" })
      { tracedRequest with path := "/debug/pprof/heap" } 200).ctx.journal = none ∧
    (ServeHTTP demoDeps demoOption true (fun c => { Outcome.keep c with fault := some "boom" })
      { tracedRequest with path := "/debug/pprof/heap" } 200).trace.infoLog = [] :=
  excluded_paths_not_journalled demoDeps demoOption true
    (fun c => { Outcome.keep c with fault := some "boom" })
    { tracedRequest with path := "/debug/pprof/heap" } 200 (by decide)

/-- C5 as amended: when a metrics recorder is configured, it is invoked exactly once for
every request whose recovery block completes (the panic notifier, if it ran, returned)
and whose transport status read at unwind is not 404, whatever the abort state and the
payload are. -/
theorem metrics_recorded_once (d : Deps) (opt : option) (allow : Bool) (h : Ctx → Outcome)
    (r : HTTPRequest) (status : Nat) (record : RecordMetrics)
    (hopt : opt.recordMetrics = some record)
    (hrec : (atUnify d opt allow h r status).fault = none)
    (h404 : (atUnify d opt allow h r status).ctx.status ≠ 404) :
    (ServeHTTP d opt allow h r status).trace.recorded.length = 1 := by
  rw [ServeHTTP_recorded, unwind_recorded d opt _ _ _ hrec h404]
  simp only [metricsHook, hopt]
  rw [unify_recorded, recoverBlock_recorded]
  rfl

/-- C5 as amended, at a request whose handler sets a payload. -/
theorem metrics_recorded_once_witness :
    (ServeHTTP demoDeps demoOption true (payloadHandler okPayload) demoRequest
      200).trace.recorded.length = 1 :=
  metrics_recorded_once demoDeps demoOption true (payloadHandler okPayload) demoRequest 200
    quietRecorder rfl rfl (by decide)

/-- C5 refuted as stated: with a recorder configured, a request whose handler leaves the
transport status 404 passes through the journal middleware without any invocation of the
recorder. -/
theorem metrics_not_recorded_at_404 :
    demoOption.recordMetrics.isSome = true ∧
    (ServeHTTP demoDeps demoOption true (fun c => { Outcome.keep c with status := 404 })
      demoRequest 200).trace.recorded = [] := by
  exact ⟨rfl, rfl⟩


/-- The handlers run when the rate gate is disabled or allows the request. -/
theorem atDefer_of_allowed (d : Deps) (opt : option) (allow : Bool) (h : Ctx → Outcome)
    (r : HTTPRequest) (status : Nat) (hallow : opt.enableRate = true → allow = true) :
    atDefer d opt allow h r status =
      ((enter d (Ctx.incoming r status)).apply (h (enter d (Ctx.incoming r status))),
        (h (enter d (Ctx.incoming r status))).fault) := by
  unfold atDefer chain rateGate handlers
  cases hr : opt.enableRate with
  | false => simp
  | true => simp [hallow hr]

/-- The recovery block leaves the alias alone when the notifier, if it is invoked, leaves
it alone. -/
theorem recoverBlock_aliasName (d : Deps) (opt : option) (c : Ctx) (t : Trace)
    (err : Option Fault)
    (hq : ∀ n e, opt.panicNotify = some n → err = some e →
      (n (c.SetPayload d.ErrServer) e d.stack).aliasName = c.aliasName) :
    (recoverBlock d opt c t err).ctx.aliasName = c.aliasName := by
  unfold recoverBlock
  cases err with
  | none => rfl
  | some e =>
    cases hn : opt.panicNotify with
    | none => rfl
    | some n => exact hq n e hn rfl

/-- Every call the metrics hook adds carries the alias of the context when it is not
empty, and the URI of the context otherwise. -/
theorem metricsHook_recorded_uri (d : Deps) (opt : option) (c : Ctx) (t : Trace)
    (response : Option errno.Error) (m : MetricsCall)
    (hm : m ∈ (metricsHook d opt c t response).1.recorded) :
    m ∈ t.recorded ∨ m.uri = if c.aliasName ≠ "" then c.aliasName else c.uri := by
  unfold metricsHook at hm
  cases hr : opt.recordMetrics with
  | none =>
    rw [hr] at hm
    exact Or.inl hm
  | some record =>
    rw [hr] at hm
    rcases List.mem_append.1 hm with h1 | h1
    · exact Or.inl h1
    · right
      rw [List.mem_singleton.1 h1]
      by_cases ha : c.aliasName = "" <;> simp [ha, Ctx.Alias, Ctx.URI]

/-- C7 as amended: for every request, every invocation of the metrics recorder receives
as uri the alias held by the context at the hook when that alias is not empty, and the
request URI of the context otherwise. When the handlers ran (rate gate disabled or
allowing) and the panic notifier, if it is invoked after a panic of the handlers, leaves
the alias as the handlers set it, that alias is the one the handlers set: the uri equals
a non-empty alias a set by the handlers, and the request URI when they set none or the
empty one. -/
theorem metrics_uri_is_alias (d : Deps) (opt : option) (allow : Bool) (h : Ctx → Outcome)
    (r : HTTPRequest) (status : Nat) :
    (∀ m ∈ (ServeHTTP d opt allow h r status).trace.recorded,
      m.uri = if (ServeHTTP d opt allow h r status).ctx.aliasName ≠ ""
              then (ServeHTTP d opt allow h r status).ctx.aliasName
              else r.uri) ∧
    ((opt.enableRate = true → allow = true) →
      (∀ n e, opt.panicNotify = some n →
        (h (enter d (Ctx.incoming r status))).fault = some e →
        (n (((enter d (Ctx.incoming r status)).apply
            (h (enter d (Ctx.incoming r status)))).SetPayload d.ErrServer) e d.stack).aliasName =
          (h (enter d (Ctx.incoming r status))).aliasName) →
      ((ServeHTTP d opt allow h r status).ctx.aliasName =
          (h (enter d (Ctx.incoming r status))).aliasName ∧
        ∀ m ∈ (ServeHTTP d opt allow h r status).trace.recorded,
          m.uri = if (h (enter d (Ctx.incoming r status))).aliasName ≠ ""
                  then (h (enter d (Ctx.incoming r status))).aliasName
                  else r.uri)) := by
  have hfirst : ∀ m ∈ (ServeHTTP d opt allow h r status).trace.recorded,
      m.uri = if (ServeHTTP d opt allow h r status).ctx.aliasName ≠ ""
              then (ServeHTTP d opt allow h r status).ctx.aliasName
              else r.uri := by
    intro m hm
    rw [ServeHTTP_ctx, unwind_aliasName]
    rw [ServeHTTP_recorded] at hm
    cases hf : (recoverBlock d opt (atDefer d opt allow h r status).1 Trace.empty
        (atDefer d opt allow h r status).2).fault with
    | some e =>
      rw [unwind_of_fault d opt _ _ _ e hf] at hm
      simp only [recoverBlock_recorded] at hm
      exact absurd hm (List.not_mem_nil m)
    | none =>
      by_cases h404 : (recoverBlock d opt (atDefer d opt allow h r status).1 Trace.empty
          (atDefer d opt allow h r status).2).ctx.status = 404
      · rw [unwind_of_404 d opt _ _ _ hf h404] at hm
        simp only [recoverBlock_recorded] at hm
        exact absurd hm (List.not_mem_nil m)
      · rw [unwind_recorded d opt _ _ _ hf h404] at hm
        rcases metricsHook_recorded_uri d opt _ _ _ m hm with h1 | h1
        · rw [unify_recorded, recoverBlock_recorded] at h1
          exact absurd h1 (List.not_mem_nil m)
        · rw [h1, unify_aliasName, unify_uri, recoverBlock_uri, atDefer_uri]
  refine ⟨hfirst, fun hallow hq => ?_⟩
  have halias : (ServeHTTP d opt allow h r status).ctx.aliasName =
      (h (enter d (Ctx.incoming r status))).aliasName := by
    rw [ServeHTTP_ctx, unwind_aliasName, atDefer_of_allowed d opt allow h r status hallow]
    rw [recoverBlock_aliasName d opt _ _ _ hq]
    rfl
  refine ⟨halias, fun m hm => ?_⟩
  rw [← halias]
  exact hfirst m hm

/-- C7 as amended, at a request to "/api/user/7" whose handler set the alias
"/api/user/:id" and then panicked, with a notifier registered that leaves the context as
it is. -/
theorem metrics_uri_is_alias_witness :
    (ServeHTTP demoDeps notifyOption true aliasThenPanic demoRequest 200).trace.recorded.map
        (fun m => m.uri) = ["/api/user/:id"] ∧
    (∀ m ∈ (ServeHTTP demoDeps notifyOption true aliasThenPanic demoRequest 200).trace.recorded,
      m.uri =
        if (ServeHTTP demoDeps notifyOption true aliasThenPanic demoRequest 200).ctx.aliasName ≠ ""
        then (ServeHTTP demoDeps notifyOption true aliasThenPanic demoRequest 200).ctx.aliasName
        else demoRequest.uri) ∧
    (ServeHTTP demoDeps notifyOption true aliasThenPanic demoRequest 200).ctx.aliasName =
      "/api/user/:id" ∧
    (∀ m ∈ (ServeHTTP demoDeps notifyOption true aliasThenPanic demoRequest 200).trace.recorded,
      m.uri = "/api/user/:id") :=
  ⟨rfl, (metrics_uri_is_alias demoDeps notifyOption true aliasThenPanic demoRequest 200).1,
    ((metrics_uri_is_alias demoDeps notifyOption true aliasThenPanic demoRequest 200).2
      (fun _ => rfl) (fun n e hn _ => by
        have hq : quietNotifier = n := Option.some.inj hn
        subst hq
        rfl)).1,
    ((metrics_uri_is_alias demoDeps notifyOption true aliasThenPanic demoRequest 200).2
      (fun _ => rfl) (fun n e hn _ => by
        have hq : quietNotifier = n := Option.some.inj hn
        subst hq
        rfl)).2⟩

/-- C7 refuted as stated: a handler sets the alias "/api/user/:id" and panics, the
registered notifier sets the alias "/from-notifier" on the context, and the recorder is
invoked once with the uri "/from-notifier", which is not the alias the handler set. -/
theorem metrics_uri_not_handler_alias :
    (aliasThenPanic (enter demoDeps (Ctx.incoming demoRequest 200))).aliasName = "/api/user/:id" ∧
    (ServeHTTP demoDeps aliasNotifyOption true aliasThenPanic demoRequest 200).trace.recorded.map
      (fun m => m.uri) = ["/from-notifier"] := by
  exact ⟨rfl, rfl⟩

/-- The `ctx.JSON` calls of a request whose recovery block completes with a status other
than 404 and a response object. -/
theorem ServeHTTP_json_of_response (d : Deps) (opt : option) (allow : Bool) (h : Ctx → Outcome)
    (r : HTTPRequest) (status : Nat) (resp : errno.Error)
    (hrec : (atUnify d opt allow h r status).fault = none)
    (h404 : (atUnify d opt allow h r status).ctx.status ≠ 404)
    (hresp : responseOf (atUnify d opt allow h r status).ctx = some resp) :
    (ServeHTTP d opt allow h r status).trace.json =
      [{ code := 200, obj := { resp with id := envelopeID (atUnify d opt allow h r status).ctx } }] := by
  rw [ServeHTTP_json, unwind_json d opt _ _ _ hrec h404]
  unfold atUnify at hresp
  rw [unify_of_some d _ _ resp hresp]
  simp only [recoverBlock_json]
  rfl

/-- The state after the recovery block when the chain panicked and the notifier, if
there is one, returns leaving status, abort flag and payload as they are. -/
theorem recoverBlock_of_panic (d : Deps) (opt : option) (c : Ctx) (t : Trace) (e : Fault)
    (hnotify : ∀ n, opt.panicNotify = some n →
      (n (c.SetPayload d.ErrServer) e d.stack).fault = none ∧
      (n (c.SetPayload d.ErrServer) e d.stack).status = c.status ∧
      (n (c.SetPayload d.ErrServer) e d.stack).aborted = c.aborted ∧
      (n (c.SetPayload d.ErrServer) e d.stack).payload = some d.ErrServer) :
    (recoverBlock d opt c t (some e)).fault = none ∧
    (recoverBlock d opt c t (some e)).ctx.status = c.status ∧
    (recoverBlock d opt c t (some e)).ctx.aborted = c.aborted ∧
    (recoverBlock d opt c t (some e)).ctx.payload = some d.ErrServer := by
  unfold recoverBlock
  cases hn : opt.panicNotify with
  | none => exact ⟨rfl, rfl, rfl, rfl⟩
  | some n =>
    obtain ⟨h1, h2, h3, h4⟩ := hnotify n hn
    exact ⟨h1, h2, h3, h4⟩

/-- C2 as amended: for every request whose handler chain panics after leaving the request
not aborted and with a transport status other than 404, and whose panic notifier, if one
is registered, returns normally leaving status, abort flag and payload as they are, the
unwind phase makes exactly one `ctx.JSON` call, with status argument 200 and an envelope
whose business code is the code of `errno.ErrServer`. -/
theorem panic_writes_server_error_envelope (d : Deps) (opt : option) (allow : Bool)
    (h : Ctx → Outcome) (r : HTTPRequest) (status : Nat) (e : Fault)
    (hpanic : (atDefer d opt allow h r status).2 = some e)
    (h404 : (atDefer d opt allow h r status).1.status ≠ 404)
    (habort : (atDefer d opt allow h r status).1.aborted = false)
    (hnotify : ∀ n, opt.panicNotify = some n →
      (n ((atDefer d opt allow h r status).1.SetPayload d.ErrServer) e d.stack).fault = none ∧
      (n ((atDefer d opt allow h r status).1.SetPayload d.ErrServer) e d.stack).status =
        (atDefer d opt allow h r status).1.status ∧
      (n ((atDefer d opt allow h r status).1.SetPayload d.ErrServer) e d.stack).aborted =
        (atDefer d opt allow h r status).1.aborted ∧
      (n ((atDefer d opt allow h r status).1.SetPayload d.ErrServer) e d.stack).payload =
        some d.ErrServer) :
    ∃ call, (ServeHTTP d opt allow h r status).trace.json = [call] ∧ call.code = 200 ∧
      call.obj.GetCode = d.ErrServer.GetCode := by
  obtain ⟨h1, h2, h3, h4⟩ :=
    recoverBlock_of_panic d opt (atDefer d opt allow h r status).1 Trace.empty e hnotify
  have hu : atUnify d opt allow h r status =
      recoverBlock d opt (atDefer d opt allow h r status).1 Trace.empty (some e) := by
    unfold atUnify; rw [hpanic]
  have hresp : responseOf (atUnify d opt allow h r status).ctx = some d.ErrServer := by
    rw [hu]
    simp [responseOf, Ctx.IsAborted, h3, habort, Ctx.GetPayload, h4]
  refine ⟨_, ServeHTTP_json_of_response d opt allow h r status d.ErrServer (by rw [hu]; exact h1)
    (by rw [hu, h2]; exact h404) hresp, rfl, rfl⟩

/-- C2 as amended, at a request whose handler panics without touching the context, with a
notifier registered that returns normally. -/
theorem panic_writes_server_error_envelope_witness :
    ∃ call, (ServeHTTP demoDeps notifyOption true panicHandler demoRequest 200).trace.json = [call] ∧
      call.code = 200 ∧ call.obj.GetCode = demoDeps.ErrServer.GetCode :=
  panic_writes_server_error_envelope demoDeps notifyOption true panicHandler demoRequest 200 "boom"
    rfl (by decide) rfl (fun n hn => by
      have hq : quietNotifier = n := Option.some.inj hn
      subst hq
      exact ⟨rfl, rfl, rfl, rfl⟩)

/-- C2 refuted as stated: a handler that sets status 404 and panics gets no envelope at
all, and a handler that aborts with an application-level error and panics gets the
envelope of that error, whose business code is not the one of `errno.ErrServer`. -/
theorem panic_without_server_error_envelope :
    (panicAt404 (enter demoDeps (Ctx.incoming demoRequest 200))).fault = some "boom" ∧
    (ServeHTTP demoDeps demoOption true panicAt404 demoRequest 200).trace.json = [] ∧
    (abortThenPanic (enter demoDeps (Ctx.incoming demoRequest 200))).fault = some "boom" ∧
    (ServeHTTP demoDeps demoOption true abortThenPanic demoRequest 200).trace.json =
      [{ code := 200, obj := { code := 20001, msg := "user not found", data := "", id := "minted" } }] ∧
    demoDeps.ErrServer.GetCode = 10101 := by
  exact ⟨rfl, rfl, rfl, rfl, rfl⟩


/-- On a journalled path the middleware attaches a journal whose id is the inbound
correlation id when that is not empty, and a minted id otherwise. -/
theorem enter_journal_of_journalled (d : Deps) (c : Ctx)
    (hp : withoutJournalPaths c.path = false) :
    (enter d c).journal =
      some (journal.NewJournal d.mint (c.header.get d.JournalHeader)) := by
  unfold enter
  by_cases h3 : c.header.get d.JournalHeader = ""
  · simp [hp, Ctx.setJournal, Ctx.GetHeader, h3]
  · simp [hp, Ctx.setJournal, Ctx.GetHeader, h3]

/-- With a journal handle the finalisation logs one entry: it has the id of the handle
and its success flag says that the request is not aborted and has status 200. -/
theorem finalize_infoLog_of_journal (d : Deps) (c : Ctx) (t : Trace)
    (response : Option errno.Error) (x : journal.Journal) (hj : c.journal = some x) :
    ∃ j, (finalize d c t response).infoLog = t.infoLog ++ [j] ∧ j.id = x.id ∧
      j.Success = (!c.aborted && c.status == 200) := by
  unfold finalize
  simp only [Ctx.Journal, hj]
  exact ⟨_, rfl, rfl, rfl⟩

/-- The journal entries of a request whose recovery block completes with a status other
than 404 and a journal handle, when the recorder does not panic. -/
theorem ServeHTTP_infoLog_of_journal (d : Deps) (opt : option) (allow : Bool)
    (h : Ctx → Outcome) (r : HTTPRequest) (status : Nat) (x : journal.Journal)
    (hrec : (atUnify d opt allow h r status).fault = none)
    (h404 : (atUnify d opt allow h r status).ctx.status ≠ 404)
    (hj : (atUnify d opt allow h r status).ctx.journal = some x)
    (hm : ∀ record call, opt.recordMetrics = some record → record call = none) :
    ∃ j, (ServeHTTP d opt allow h r status).trace.infoLog = [j] ∧ j.id = x.id ∧
      j.Success = (!(ServeHTTP d opt allow h r status).ctx.aborted &&
        (ServeHTTP d opt allow h r status).ctx.status == 200) := by
  have hju : (unify d (atUnify d opt allow h r status).ctx
      (atUnify d opt allow h r status).trace).1.journal = some x := by
    rw [unify_journal, hj]
  obtain ⟨j, hj1, hj2, hj3⟩ := finalize_infoLog_of_journal d _
    (metricsHook d opt
      (unify d (atUnify d opt allow h r status).ctx (atUnify d opt allow h r status).trace).1
      (unify d (atUnify d opt allow h r status).ctx (atUnify d opt allow h r status).trace).2.1
      (unify d (atUnify d opt allow h r status).ctx (atUnify d opt allow h r status).trace).2.2).1
    (unify d (atUnify d opt allow h r status).ctx (atUnify d opt allow h r status).trace).2.2
    x hju
  refine ⟨j, ?_, hj2, ?_⟩
  · rw [ServeHTTP_infoLog, unwind_infoLog d opt _ _ _ hrec h404 hm]
    unfold atUnify at hj1
    rw [hj1, metricsHook_infoLog, unify_infoLog, recoverBlock_infoLog]
    rfl
  · rw [ServeHTTP_ctx, unwind_ctx d opt _ _ _ hrec h404]
    exact hj3

/-- C3 as amended: for every request to a non-excluded path whose recovery block
completes (the panic notifier, if it ran, returned), whose transport status read at
unwind is not 404, whose journal handle was not cleared by the handlers or the notifier,
and whose metrics recorder, if there is one, returns normally, the journal middleware
logs exactly one journal entry, and the Success flag of that entry is true if and only if
the final transport status is 200 and the request is not aborted. -/
theorem journal_entry_logged_once (d : Deps) (opt : option) (allow : Bool)
    (h : Ctx → Outcome) (r : HTTPRequest) (status : Nat)
    (hpath : withoutJournalPaths r.path = false)
    (hrec : (atUnify d opt allow h r status).fault = none)
    (h404 : (atUnify d opt allow h r status).ctx.status ≠ 404)
    (hkeep : (atUnify d opt allow h r status).ctx.journal =
      (enter d (Ctx.incoming r status)).journal)
    (hm : ∀ record call, opt.recordMetrics = some record → record call = none) :
    ∃ j, (ServeHTTP d opt allow h r status).trace.infoLog = [j] ∧
      (j.Success = true ↔
        ((ServeHTTP d opt allow h r status).ctx.status = 200 ∧
          (ServeHTTP d opt allow h r status).ctx.aborted = false)) := by
  have hj := enter_journal_of_journalled d (Ctx.incoming r status) hpath
  rw [hj] at hkeep
  obtain ⟨j, h1, _, h3⟩ := ServeHTTP_infoLog_of_journal d opt allow h r status _ hrec h404 hkeep hm
  refine ⟨j, h1, ?_⟩
  rw [h3]
  cases (ServeHTTP d opt allow h r status).ctx.aborted <;> simp

/-- C3 as amended, at a request whose handler sets a payload. -/
theorem journal_entry_logged_once_witness :
    ∃ j, (ServeHTTP demoDeps demoOption true (payloadHandler okPayload) demoRequest
        200).trace.infoLog = [j] ∧
      (j.Success = true ↔
        ((ServeHTTP demoDeps demoOption true (payloadHandler okPayload) demoRequest
            200).ctx.status = 200 ∧
          (ServeHTTP demoDeps demoOption true (payloadHandler okPayload) demoRequest
            200).ctx.aborted = false)) :=
  journal_entry_logged_once demoDeps demoOption true (payloadHandler okPayload) demoRequest 200
    rfl rfl (by decide) rfl (fun record call hr => by
      have hq : quietRecorder = record := Option.some.inj hr
      subst hq
      rfl)

/-- C3 refuted as stated: on a non-excluded path, a handler that leaves the transport
status 404 gets no journal entry, and neither does a handler that disables the journal. -/
theorem journal_entry_missing :
    withoutJournalPaths demoRequest.path = false ∧
    (ServeHTTP demoDeps demoOption true notFoundHandler demoRequest 200).ctx.status = 404 ∧
    (ServeHTTP demoDeps demoOption true notFoundHandler demoRequest 200).trace.infoLog = [] ∧
    (ServeHTTP demoDeps demoOption true DisableJournal demoRequest 200).ctx.status = 200 ∧
    (ServeHTTP demoDeps demoOption true DisableJournal demoRequest 200).trace.infoLog = [] := by
  exact ⟨rfl, rfl, rfl, rfl, rfl⟩

theorem Header.get_set (hs : Header) (key value : String) :
    (hs.set key value).get key = value := by
  simp [Header.get, Header.set, List.lookup]

/-- C4 as amended: for every request to a non-excluded path that carries a non-empty
correlation-id header h, whose recovery block completes, whose transport status read at
unwind is not 404 and whose journal handle was not cleared: the response carries the
correlation header with value h when a response object exists (the payload of a request
that is not aborted, the application-level abort error of an aborted one), and the one
logged journal entry has id h when the metrics recorder, if there is one, returns
normally. -/
theorem correlation_id_round_trip (d : Deps) (opt : option) (allow : Bool)
    (h : Ctx → Outcome) (r : HTTPRequest) (status : Nat) (hval : String)
    (hpath : withoutJournalPaths r.path = false)
    (hhdr : r.header.get d.JournalHeader = hval)
    (hne : hval ≠ "")
    (hrec : (atUnify d opt allow h r status).fault = none)
    (h404 : (atUnify d opt allow h r status).ctx.status ≠ 404)
    (hkeep : (atUnify d opt allow h r status).ctx.journal =
      (enter d (Ctx.incoming r status)).journal) :
    (responseOf (atUnify d opt allow h r status).ctx ≠ none →
      (ServeHTTP d opt allow h r status).ctx.respHeader.get d.JournalHeader = hval) ∧
    ((∀ record call, opt.recordMetrics = some record → record call = none) →
      ∃ j, (ServeHTTP d opt allow h r status).trace.infoLog = [j] ∧ j.id = hval) := by
  have hj := enter_journal_of_journalled d (Ctx.incoming r status) hpath
  have hid : (journal.NewJournal d.mint ((Ctx.incoming r status).header.get d.JournalHeader)).id
      = hval := by
    have : (Ctx.incoming r status).header = r.header := rfl
    rw [this, hhdr]
    simp [journal.NewJournal, hne]
  rw [hj] at hkeep
  constructor
  · intro hresp
    obtain ⟨resp, hr⟩ : ∃ resp, responseOf (atUnify d opt allow h r status).ctx = some resp := by
      cases hq : responseOf (atUnify d opt allow h r status).ctx with
      | none => exact absurd hq hresp
      | some resp => exact ⟨resp, rfl⟩
    rw [ServeHTTP_ctx, unwind_ctx d opt _ _ _ hrec h404]
    unfold atUnify at hr hkeep
    rw [unify_of_some d _ _ resp hr]
    simp only [hkeep]
    rw [hid]
    exact Header.get_set _ _ _
  · intro hm
    obtain ⟨j, h1, h2, _⟩ :=
      ServeHTTP_infoLog_of_journal d opt allow h r status _ hrec h404 hkeep hm
    exact ⟨j, h1, by rw [h2, hid]⟩

/-- C4 as amended, at a request with correlation id `abc` whose handler sets a payload. -/
theorem correlation_id_round_trip_witness :
    (ServeHTTP demoDeps demoOption true (payloadHandler okPayload) tracedRequest
      200).ctx.respHeader.get demoDeps.JournalHeader = "abc" ∧
    ∃ j, (ServeHTTP demoDeps demoOption true (payloadHandler okPayload) tracedRequest
      200).trace.infoLog = [j] ∧ j.id = "abc" :=
  ⟨(correlation_id_round_trip demoDeps demoOption true (payloadHandler okPayload) tracedRequest
      200 "abc" rfl rfl (by decide) rfl (by decide) rfl).1 (by decide),
    (correlation_id_round_trip demoDeps demoOption true (payloadHandler okPayload) tracedRequest
      200 "abc" rfl rfl (by decide) rfl (by decide) rfl).2 (fun record call hr => by
        have hq : quietRecorder = record := Option.some.inj hr
        subst hq
        rfl)⟩

/-- C4 refuted as stated: a request that carries the correlation id `abc` and whose
handler sets no payload is answered without the correlation header, although its journal
entry is logged with id `abc`. -/
theorem correlation_id_not_echoed :
    tracedRequest.header.get demoDeps.JournalHeader = "abc" ∧
    withoutJournalPaths tracedRequest.path = false ∧
    (ServeHTTP demoDeps demoOption true Outcome.keep tracedRequest 200).ctx.respHeader = [] ∧
    (ServeHTTP demoDeps demoOption true Outcome.keep tracedRequest 200).ctx.respHeader.get
      demoDeps.JournalHeader = "" ∧
    (ServeHTTP demoDeps demoOption true Outcome.keep tracedRequest 200).trace.infoLog.map
      (fun j => j.id) = ["abc"] := by
  exact ⟨rfl, rfl, rfl, rfl, rfl⟩

/-- A fault of the panic notifier leaves the journal middleware as a propagating fault and
is stopped by the outer recovery middleware, which logs it after the first one. -/
theorem notifier_fault_is_contained :
    (serveInner demoDeps faultyOption true panicHandler demoRequest 200).fault
      = some "notify failed" ∧
    (ServeHTTP demoDeps faultyOption true panicHandler demoRequest 200).fault = none ∧
    (ServeHTTP demoDeps faultyOption true panicHandler demoRequest 200).trace.errorLog.map
      (fun p => p.fault) = ["boom", "notify failed"] ∧
    (ServeHTTP demoDeps faultyOption true panicHandler demoRequest 200).trace.json = [] := by
  exact ⟨rfl, rfl, rfl, rfl⟩

end Core
